import Mathlib

/-!
Formal model of the rustdoc-JSON schema and renderer implemented in
`src/lib.rs` of the `ai-doc` crate.

The development has three layers, each translated directly from the source:
* the data model (`RustDoc`, `RustDocItem`, `ItemInner`, `Parameter`,
  `ReturnType`, `GenericArgs`, ...), mirroring the Rust type definitions;
* the renderer (`Display` implementations, `FunctionDecl::print`,
  `RustDocItem::print`, `format_angle_bracketed_args`), modelled as pure
  functions from the model to `String` — the printed byte stream of the Rust
  code is reconstructed as the returned string;
* the deserializer, modelling the behaviour of the derived
  `serde::Deserialize` instances on a generic JSON value: structs read their
  fields by key (unknown keys ignored, `Option` fields default to `none`),
  and `#[serde(untagged)]` enums try their variants in declaration order and
  keep the first success.  Recursion is bounded by explicit fuel, mirroring
  the recursion limit of `serde_json`.
-/

-- ## JSON values

/-- A JSON value, the input of the deserializer layer. -/
inductive Json where
  | null
  | bool (b : Bool)
  | str (s : String)
  | arr (elems : List Json)
  | obj (fields : List (String × Json))

-- ## Data model, translated from the Rust type definitions

/-- Model of `struct GenericParam {}` (a field-less struct). -/
structure GenericParam where
deriving DecidableEq, Repr

/-- Model of `struct SliceContent`. -/
structure SliceContent where
  primitive : String
deriving DecidableEq, Repr

/-- Model of `struct TypeContent`. -/
structure TypeContent where
  primitive : Option String
  slice : Option SliceContent
deriving DecidableEq, Repr

/-- Model of `enum GenericArg` (untagged: `Type` with key `type`, or
`Lifetime` with key `lifetime`). -/
inductive GenericArg where
  | type (type_inner : TypeContent)
  | lifetime (lifetime : String)
deriving DecidableEq, Repr

mutual

/-- Model of `enum Parameter` (untagged), the type-expression sum used in
function-parameter position.  Variants in source declaration order. -/
inductive Parameter where
  | borrowedRef (borrowed_ref : BorrowedRefParam)
  | primitive (primitive : String)
  | generic (generic : String)
  | resolvedPath (resolved_path : ResolvedPath)
  | qualified (qualified_path : QualifiedPath)
  | slice (slice : Parameter)
  | array (array : ParameterArrayType)
  | rawPointer (raw_pointer : RawPointer)
  | implTrait (impl_trait : List ImplTrait)
  | dynTrait (dyn_trait : DynTrait)

/-- Model of `struct DynTrait`. -/
inductive DynTrait where
  | mk (lifetime : Option String) (traits : List TraitBound)

/-- Model of `struct ParameterArrayType` (field `type` renamed to `type_`). -/
inductive ParameterArrayType where
  | mk (len : String) (type_ : Parameter)

/-- Model of `struct BorrowedRefParam`. -/
inductive BorrowedRefParam where
  | mk (lifetime : Option String) (mutable : Bool) (type_ : Parameter)

/-- Model of `struct BorrowedRefReturn`. -/
inductive BorrowedRefReturn where
  | mk (lifetime : Option String) (mutable : Bool) (type_ : ReturnType)

/-- Model of `struct ResolvedPath`. -/
inductive ResolvedPath where
  | mk (name : String) (id : Option String) (args : Option GenericArgs)

/-- Model of `enum GenericArgs` (untagged). -/
inductive GenericArgs where
  | angleBracketed (angle_bracketed : AngleBracketed)
  | parenthesized (parenthesized : ParenthesizedGenericArgs)

/-- Model of `struct ParenthesizedGenericArgs`. -/
inductive ParenthesizedGenericArgs where
  | mk (inputs : List Parameter) (output : Option ReturnType)

/-- Model of `struct AngleBracketed` (`bindings` has `serde(default)`). -/
inductive AngleBracketed where
  | mk (args : List GenericArg) (bindings : List TypeBinding)

/-- Model of `struct TypeBinding`. -/
inductive TypeBinding where
  | mk (name : String) (args : Option GenericArgs) (binding : BindingKind)

/-- Model of `enum BindingKind` (untagged, single variant `Equality`). -/
inductive BindingKind where
  | equality (equality : EqualityConstraint)

/-- Model of `struct EqualityConstraint` (field `type` renamed to `type_`). -/
inductive EqualityConstraint where
  | mk (type_ : ReturnType)

/-- Model of `enum ReturnType` (untagged), the type-expression sum used in
return and nested-composite position.  Variants in source declaration order;
note this sum has a `tuple` variant that `Parameter` lacks. -/
inductive ReturnType where
  | resolvedPath (resolved_path : ResolvedPath)
  | borrowedRef (borrowed_ref : BorrowedRefReturn)
  | primitive (primitive : String)
  | generic (generic : String)
  | qualified (qualified_path : QualifiedPath)
  | array (array : ArrayType)
  | tuple (tuple : List ReturnType)
  | slice (slice : ReturnType)
  | rawPointer (raw_pointer : RawPointer)
  | implTrait (impl_trait : List ImplTrait)
  | dynTrait (dyn_trait : DynTrait)

/-- Model of `struct ImplTrait`. -/
inductive ImplTrait where
  | mk (trait_bound : TraitBound)

/-- Model of `struct TraitBound` (field `trait` renamed to `trait_`). -/
inductive TraitBound where
  | mk (generic_params : List GenericParam) (modifier : Option String)
      (trait_ : ResolvedPath)

/-- Model of `struct ArrayType` (return position). -/
inductive ArrayType where
  | mk (len : String) (type_ : ReturnType)

/-- Model of `struct RawPointer`; its inner type is a `ReturnType` in the
source even when the pointer occurs in parameter position. -/
inductive RawPointer where
  | mk (mutable : Bool) (type_ : ReturnType)

/-- Model of `struct QualifiedPath`; its JSON field for the trait is spelled
`trait_` in the source (no serde rename there). -/
inductive QualifiedPath where
  | mk (name : String) (args : Option GenericArgs) (self_type : Parameter)
      (trait_ : Option ResolvedPath)

end

-- Field accessors for the single-constructor inductives above.

def ResolvedPath.name : ResolvedPath → String
  | .mk n _ _ => n

def ResolvedPath.id : ResolvedPath → Option String
  | .mk _ i _ => i

def ResolvedPath.args : ResolvedPath → Option GenericArgs
  | .mk _ _ a => a

def ImplTrait.trait_bound : ImplTrait → TraitBound
  | .mk tb => tb

def TraitBound.trait_ : TraitBound → ResolvedPath
  | .mk _ _ t => t

def DynTrait.traits : DynTrait → List TraitBound
  | .mk _ ts => ts

-- ## Upper layers of the data model

/-- Model of `struct EnumDetails`. -/
structure EnumDetails where
  variants : List String
  variants_stripped : Bool

/-- Model of `struct EnumVariant` (declared in the source, not consulted by
the render path). -/
structure EnumVariant where
  name : String
  docs : Option String

/-- Model of `struct FunctionDecl`. -/
structure FunctionDecl where
  inputs : List (String × Parameter)
  output : Option ReturnType
  c_variadic : Bool

/-- Model of `struct FunctionDetails`. -/
structure FunctionDetails where
  decl : FunctionDecl

/-- Model of `struct ItemInner`: a plain struct whose two fields are
independent options (the `enum` JSON key is renamed to `enum_`). -/
structure ItemInner where
  function : Option FunctionDetails
  enum_ : Option EnumDetails

/-- Model of `struct RustDocItem`. -/
structure RustDocItem where
  docs : Option String
  visibility : Option String
  name : Option String
  inner : Option ItemInner

/-- Model of `struct RustDoc`; the `HashMap<String, RustDocItem>` index is
modelled as an association list with unique keys. -/
structure RustDoc where
  root : String
  crate_version : String
  includes_private : Bool
  index : List (String × RustDocItem)

/-- Lookup in the document index, modelling `doc.index.get(id)`. -/
def RustDoc.get (doc : RustDoc) (id : String) : Option RustDocItem :=
  (doc.index.find? fun kv => kv.1 == id).map fun kv => kv.2

-- ## Renderer, translated from the `Display` implementations

/-- Model of `GenericArg::format`. -/
def GenericArg.format : GenericArg → String
  | .type type_inner =>
    match type_inner.primitive with
    | some primitive => primitive
    | none =>
      match type_inner.slice with
      | some slice => "[" ++ slice.primitive ++ "]"
      | none => "/* unknown type */"
  | .lifetime lt => lt

/-- Model of `format_angle_bracketed_args`. -/
def format_angle_bracketed_args : Option GenericArgs → String
  | none => ""
  | some (.angleBracketed (.mk args _)) =>
    let formatted_args := args.map GenericArg.format
    if formatted_args.isEmpty then ""
    else "<" ++ String.intercalate ", " formatted_args ++ ">"
  | some (.parenthesized _) => ""

mutual

/-- Model of `impl fmt::Display for Parameter` (match arms in source
order); the produced string is what the Rust code writes to the formatter. -/
def renderParameter : Parameter → String
  | .borrowedRef (.mk lifetime mutable type_) =>
    (match lifetime with
     | some lt => "&" ++ lt ++ " "
     | none => "&")
    ++ (if mutable then "mut " else "")
    ++ renderParameter type_
  | .primitive primitive => primitive
  | .qualified (.mk name args _ _) => name ++ format_angle_bracketed_args args
  | .generic generic => generic
  | .resolvedPath (.mk name _ args) => name ++ format_angle_bracketed_args args
  | .slice slice => "[" ++ renderParameter slice ++ "]"
  | .array (.mk len type_) => "[" ++ renderParameter type_ ++ "; " ++ len ++ "]"
  | .rawPointer (.mk mutable type_) =>
    if mutable then "*mut " ++ renderReturnType type_
    else "*const " ++ renderReturnType type_
  | .implTrait impl_trait =>
    "impl " ++ String.intercalate " + "
      (impl_trait.map fun item => item.trait_bound.trait_.name)
  | .dynTrait (.mk _ traits) =>
    "dyn " ++ String.intercalate " + "
      (traits.map fun tb =>
        tb.trait_.name ++ format_angle_bracketed_args tb.trait_.args)

/-- Model of `impl fmt::Display for ReturnType` (match arms in source
order). -/
def renderReturnType : ReturnType → String
  | .primitive primitive => primitive
  | .resolvedPath (.mk name _ args) => name ++ format_angle_bracketed_args args
  | .array (.mk len type_) =>
    "[" ++ renderReturnType type_ ++ "; " ++ len ++ "]"
  | .borrowedRef (.mk lifetime mutable type_) =>
    (match lifetime with
     | some lt => "&" ++ lt ++ " "
     | none => "&")
    ++ (if mutable then "mut " else "")
    ++ renderReturnType type_
  | .tuple tuple =>
    if tuple.isEmpty then "()"
    else "(" ++ renderReturnTypeList tuple ++ ")"
  | .generic generic => generic
  | .qualified (.mk name args _ _) => name ++ format_angle_bracketed_args args
  | .slice slice => "[" ++ renderReturnType slice ++ "]"
  | .rawPointer (.mk mutable type_) =>
    if mutable then "*mut " ++ renderReturnType type_
    else "*const " ++ renderReturnType type_
  | .implTrait impl_trait =>
    "impl " ++ String.intercalate " + "
      (impl_trait.map fun item => item.trait_bound.trait_.name)
  | .dynTrait (.mk _ traits) =>
    "dyn " ++ String.intercalate " + "
      (traits.map fun tb =>
        tb.trait_.name ++ format_angle_bracketed_args tb.trait_.args)

/-- Comma-space join of rendered tuple elements, modelling the indexed loop
in the `Tuple` arm of `Display for ReturnType`. -/
def renderReturnTypeList : List ReturnType → String
  | [] => ""
  | [t] => renderReturnType t
  | t :: rest => renderReturnType t ++ ", " ++ renderReturnTypeList rest

end

/-- Model of `FunctionDecl::print`: the string printed for a function
declaration (a fenced code block).  The `c_variadic` flag is never read by
the source printer. -/
def FunctionDecl.print (decl : FunctionDecl) (name : String) : String :=
  "```rust\npub fn " ++ name ++ "("
  ++ String.intercalate ", "
      (decl.inputs.map fun pp => pp.1 ++ ": " ++ renderParameter pp.2)
  ++ ")"
  ++ (match decl.output with
      | some ret => " -> " ++ renderReturnType ret
      | none => "")
  ++ ";\n```\n"

/-- The text emitted for one enum variant identifier inside
`RustDocItem::print`: resolve the identifier through the document index,
print the doc-comment line if the resolved item has docs, then the name line
if it has a name; an unresolved identifier produces nothing. -/
def enumVariantLine (doc : RustDoc) (variant_id : String) : String :=
  match doc.get variant_id with
  | some variant =>
    (match variant.docs with
     | some docs => "    /// " ++ docs ++ "\n"
     | none => "")
    ++ (match variant.name with
        | some name => "    " ++ name ++ ",\n"
        | none => "")
  | none => ""

/-- The variant lines printed by the `for variant_id in &enum_details.variants`
loop, in order. -/
def enumLines (doc : RustDoc) : List String → String
  | [] => ""
  | variant_id :: rest => enumVariantLine doc variant_id ++ enumLines doc rest

/-- The fenced enum-body block emitted by `RustDocItem::print` for an item
with enum details (including the trailing blank line). -/
def renderEnumBlock (doc : RustDoc) (name : String)
    (enum_details : EnumDetails) : String :=
  "```rust\n" ++ "pub enum " ++ name ++ " \x7b\n"
  ++ enumLines doc enum_details.variants
  ++ "\x7d\n" ++ "```\n" ++ "\n"

/-- Model of `RustDocItem::print`: the output the item writes to stdout, or
`none` when it returns early without printing (no name, or no docs).  The
`visibility` check in the source is commented out, so visibility is never
read. -/
def RustDocItem.print (item : RustDocItem) (doc : RustDoc) : Option String :=
  match item.name with
  | none => none
  | some name =>
    match item.docs with
    | none => none
    | some docs =>
      some ("---\n" ++ "\n" ++ "`" ++ name ++ "`:\n" ++ "\n"
        ++ (match item.inner with
            | none => ""
            | some inner =>
              (match inner.function with
               | some f => f.decl.print name ++ "\n"
               | none => "")
              ++ (match inner.enum_ with
                  | some enum_details => renderEnumBlock doc name enum_details
                  | none => ""))
        ++ docs ++ "\n" ++ "\n")

/-- The `render_item(Document, item_id)` collaborator interface: look the
item up in the index, then render it via `RustDocItem.print`. -/
def render_item (doc : RustDoc) (item_id : String) : Option String :=
  match doc.get item_id with
  | none => none
  | some item => item.print doc

example : renderReturnType (.tuple []) = "()" := rfl

-- ## Deserializer, modelling the derived serde instances

/-- Extract a field of a JSON object by key: absent fields are reported as
`none`, a duplicated field is a structural error (as in serde struct
visitors), and fields under other keys are ignored (serde structs accept
unknown fields by default). -/
def getField (kvs : List (String × Json)) (key : String) :
    Except String (Option Json) :=
  match kvs.filter fun kv => kv.1 == key with
  | [] => .ok none
  | [kv] => .ok (some kv.2)
  | _ => .error ("duplicate field " ++ key)

/-- A required struct field: absence is a structural error. -/
def reqField (kvs : List (String × Json)) (key : String) :
    Except String Json :=
  match getField kvs key with
  | .error e => .error e
  | .ok none => .error ("missing field " ++ key)
  | .ok (some v) => .ok v

/-- An `Option` struct field: a missing key or an explicit `null` is `none`
(serde treats a missing `Option` field as `None`). -/
def optField {α : Type} (ds : Json → Except String α)
    (kvs : List (String × Json)) (key : String) :
    Except String (Option α) :=
  match getField kvs key with
  | .error e => .error e
  | .ok none => .ok none
  | .ok (some .null) => .ok none
  | .ok (some v) => do
    let a ← ds v
    pure (some a)

/-- A field with `serde(default)`: a missing key yields the default value. -/
def dfltField {α : Type} (ds : Json → Except String α)
    (kvs : List (String × Json)) (key : String) (dflt : α) :
    Except String α :=
  match getField kvs key with
  | .error e => .error e
  | .ok none => .ok dflt
  | .ok (some v) => ds v

/-- Require a JSON object (the map a derived struct visitor expects). -/
def asObj : Json → Except String (List (String × Json))
  | .obj kvs => .ok kvs
  | _ => .error "invalid type: expected a map"

def dsString : Json → Except String String
  | .str s => .ok s
  | _ => .error "invalid type: expected a string"

def dsBool : Json → Except String Bool
  | .bool b => .ok b
  | _ => .error "invalid type: expected a boolean"

/-- Deserialize the elements of a JSON sequence in order; the first failing
element fails the whole sequence. -/
def dsElems {α : Type} (ds : Json → Except String α) :
    List Json → Except String (List α)
  | [] => .ok []
  | x :: xs => do
    let a ← ds x
    let as ← dsElems ds xs
    pure (a :: as)

/-- Deserialize a `Vec<T>` from a JSON array. -/
def dsList {α : Type} (ds : Json → Except String α) :
    Json → Except String (List α)
  | .arr xs => dsElems ds xs
  | _ => .error "invalid type: expected a sequence"

/-- Deserialize a two-element Rust tuple from a JSON array of length 2. -/
def dsPair {α β : Type} (dsa : Json → Except String α)
    (dsb : Json → Except String β) : Json → Except String (α × β)
  | .arr [a, b] => do
    let x ← dsa a
    let y ← dsb b
    pure (x, y)
  | .arr _ => .error "invalid length, expected a tuple of size 2"
  | _ => .error "invalid type: expected a sequence"

/-- `#[serde(untagged)]` semantics: try the variant parses in declaration
order and keep the first success; if every variant fails, fail with the
generic untagged-enum error. -/
def firstOk {α : Type} (enumName : String) :
    List (Except String α) → Except String α
  | [] =>
    .error ("data did not match any variant of untagged enum " ++ enumName)
  | .ok a :: _ => .ok a
  | .error _ :: rest => firstOk enumName rest

/-- An untagged struct variant with a single field: the object must carry
the variant key, whose value is parsed by `ds`. -/
def tryVariant {α : Type} (j : Json) (key : String)
    (ds : Json → Except String α) : Except String α := do
  let kvs ← asObj j
  let v ← reqField kvs key
  ds v

/-- The knot of mutually recursive deserializers: one entry point per
recursive untagged union.  Every cycle in the schema passes through one of
these four types. -/
structure JsonDecoders where
  parameter : Json → Except String Parameter
  returnType : Json → Except String ReturnType
  genericArgs : Json → Except String GenericArgs
  bindingKind : Json → Except String BindingKind

def dsGenericParam : Json → Except String GenericParam := fun j => do
  let _ ← asObj j
  pure ⟨⟩

def dsSliceContent : Json → Except String SliceContent := fun j => do
  let kvs ← asObj j
  let primitive ← reqField kvs "primitive" >>= dsString
  pure ⟨primitive⟩

def dsTypeContent : Json → Except String TypeContent := fun j => do
  let kvs ← asObj j
  let primitive ← optField dsString kvs "primitive"
  let slice ← optField dsSliceContent kvs "slice"
  pure ⟨primitive, slice⟩

/-- Deserializer for the untagged `GenericArg` (variant order: `Type` with
JSON key `type`, then `Lifetime`). -/
def dsGenericArg (j : Json) : Except String GenericArg :=
  firstOk "GenericArg" [
    (do
      let ti ← tryVariant j "type" dsTypeContent
      pure (GenericArg.type ti)),
    (do
      let lt ← tryVariant j "lifetime" dsString
      pure (GenericArg.lifetime lt))]

def dsResolvedPath (d : JsonDecoders) (j : Json) :
    Except String ResolvedPath := do
  let kvs ← asObj j
  let name ← reqField kvs "name" >>= dsString
  let id ← optField dsString kvs "id"
  let args ← optField d.genericArgs kvs "args"
  pure (.mk name id args)

def dsTraitBound (d : JsonDecoders) (j : Json) :
    Except String TraitBound := do
  let kvs ← asObj j
  let generic_params ← reqField kvs "generic_params" >>= dsList dsGenericParam
  let modifier ← optField dsString kvs "modifier"
  let trait_ ← reqField kvs "trait" >>= dsResolvedPath d
  pure (.mk generic_params modifier trait_)

def dsImplTrait (d : JsonDecoders) (j : Json) :
    Except String ImplTrait := do
  let kvs ← asObj j
  let trait_bound ← reqField kvs "trait_bound" >>= dsTraitBound d
  pure (.mk trait_bound)

def dsDynTrait (d : JsonDecoders) (j : Json) :
    Except String DynTrait := do
  let kvs ← asObj j
  let lifetime ← optField dsString kvs "lifetime"
  let traits ← reqField kvs "traits" >>= dsList (dsTraitBound d)
  pure (.mk lifetime traits)

def dsBorrowedRefParam (d : JsonDecoders) (j : Json) :
    Except String BorrowedRefParam := do
  let kvs ← asObj j
  let lifetime ← optField dsString kvs "lifetime"
  let mutable ← reqField kvs "mutable" >>= dsBool
  let type_ ← reqField kvs "type" >>= d.parameter
  pure (.mk lifetime mutable type_)

def dsBorrowedRefReturn (d : JsonDecoders) (j : Json) :
    Except String BorrowedRefReturn := do
  let kvs ← asObj j
  let lifetime ← optField dsString kvs "lifetime"
  let mutable ← reqField kvs "mutable" >>= dsBool
  let type_ ← reqField kvs "type" >>= d.returnType
  pure (.mk lifetime mutable type_)

def dsParameterArrayType (d : JsonDecoders) (j : Json) :
    Except String ParameterArrayType := do
  let kvs ← asObj j
  let len ← reqField kvs "len" >>= dsString
  let type_ ← reqField kvs "type" >>= d.parameter
  pure (.mk len type_)

def dsArrayType (d : JsonDecoders) (j : Json) :
    Except String ArrayType := do
  let kvs ← asObj j
  let len ← reqField kvs "len" >>= dsString
  let type_ ← reqField kvs "type" >>= d.returnType
  pure (.mk len type_)

def dsRawPointer (d : JsonDecoders) (j : Json) :
    Except String RawPointer := do
  let kvs ← asObj j
  let mutable ← reqField kvs "mutable" >>= dsBool
  let type_ ← reqField kvs "type" >>= d.returnType
  pure (.mk mutable type_)

def dsQualifiedPath (d : JsonDecoders) (j : Json) :
    Except String QualifiedPath := do
  let kvs ← asObj j
  let name ← reqField kvs "name" >>= dsString
  let args ← optField d.genericArgs kvs "args"
  let self_type ← reqField kvs "self_type" >>= d.parameter
  let trait_ ← optField (dsResolvedPath d) kvs "trait_"
  pure (.mk name args self_type trait_)

def dsEqualityConstraint (d : JsonDecoders) (j : Json) :
    Except String EqualityConstraint := do
  let kvs ← asObj j
  let type_ ← reqField kvs "type" >>= d.returnType
  pure (.mk type_)

def dsTypeBinding (d : JsonDecoders) (j : Json) :
    Except String TypeBinding := do
  let kvs ← asObj j
  let name ← reqField kvs "name" >>= dsString
  let args ← optField d.genericArgs kvs "args"
  let binding ← reqField kvs "binding" >>= d.bindingKind
  pure (.mk name args binding)

def dsAngleBracketed (d : JsonDecoders) (j : Json) :
    Except String AngleBracketed := do
  let kvs ← asObj j
  let args ← reqField kvs "args" >>= dsList dsGenericArg
  let bindings ← dfltField (dsList (dsTypeBinding d)) kvs "bindings" []
  pure (.mk args bindings)

def dsParenthesizedGenericArgs (d : JsonDecoders) (j : Json) :
    Except String ParenthesizedGenericArgs := do
  let kvs ← asObj j
  let inputs ← reqField kvs "inputs" >>= dsList d.parameter
  let output ← optField d.returnType kvs "output"
  pure (.mk inputs output)

/-- One step of the untagged `Parameter` deserializer: variants tried in
source declaration order. -/
def dsParameterF (d : JsonDecoders) (j : Json) : Except String Parameter :=
  firstOk "Parameter" [
    (do
      let v ← tryVariant j "borrowed_ref" (dsBorrowedRefParam d)
      pure (Parameter.borrowedRef v)),
    (do
      let v ← tryVariant j "primitive" dsString
      pure (Parameter.primitive v)),
    (do
      let v ← tryVariant j "generic" dsString
      pure (Parameter.generic v)),
    (do
      let v ← tryVariant j "resolved_path" (dsResolvedPath d)
      pure (Parameter.resolvedPath v)),
    (do
      let v ← tryVariant j "qualified_path" (dsQualifiedPath d)
      pure (Parameter.qualified v)),
    (do
      let v ← tryVariant j "slice" d.parameter
      pure (Parameter.slice v)),
    (do
      let v ← tryVariant j "array" (dsParameterArrayType d)
      pure (Parameter.array v)),
    (do
      let v ← tryVariant j "raw_pointer" (dsRawPointer d)
      pure (Parameter.rawPointer v)),
    (do
      let v ← tryVariant j "impl_trait" (dsList (dsImplTrait d))
      pure (Parameter.implTrait v)),
    (do
      let v ← tryVariant j "dyn_trait" (dsDynTrait d)
      pure (Parameter.dynTrait v))]

/-- One step of the untagged `ReturnType` deserializer: variants tried in
source declaration order. -/
def dsReturnTypeF (d : JsonDecoders) (j : Json) : Except String ReturnType :=
  firstOk "ReturnType" [
    (do
      let v ← tryVariant j "resolved_path" (dsResolvedPath d)
      pure (ReturnType.resolvedPath v)),
    (do
      let v ← tryVariant j "borrowed_ref" (dsBorrowedRefReturn d)
      pure (ReturnType.borrowedRef v)),
    (do
      let v ← tryVariant j "primitive" dsString
      pure (ReturnType.primitive v)),
    (do
      let v ← tryVariant j "generic" dsString
      pure (ReturnType.generic v)),
    (do
      let v ← tryVariant j "qualified_path" (dsQualifiedPath d)
      pure (ReturnType.qualified v)),
    (do
      let v ← tryVariant j "array" (dsArrayType d)
      pure (ReturnType.array v)),
    (do
      let v ← tryVariant j "tuple" (dsList d.returnType)
      pure (ReturnType.tuple v)),
    (do
      let v ← tryVariant j "slice" d.returnType
      pure (ReturnType.slice v)),
    (do
      let v ← tryVariant j "raw_pointer" (dsRawPointer d)
      pure (ReturnType.rawPointer v)),
    (do
      let v ← tryVariant j "impl_trait" (dsList (dsImplTrait d))
      pure (ReturnType.implTrait v)),
    (do
      let v ← tryVariant j "dyn_trait" (dsDynTrait d)
      pure (ReturnType.dynTrait v))]

/-- One step of the untagged `GenericArgs` deserializer. -/
def dsGenericArgsF (d : JsonDecoders) (j : Json) :
    Except String GenericArgs :=
  firstOk "GenericArgs" [
    (do
      let v ← tryVariant j "angle_bracketed" (dsAngleBracketed d)
      pure (GenericArgs.angleBracketed v)),
    (do
      let v ← tryVariant j "parenthesized" (dsParenthesizedGenericArgs d)
      pure (GenericArgs.parenthesized v))]

/-- One step of the untagged `BindingKind` deserializer (single variant). -/
def dsBindingKindF (d : JsonDecoders) (j : Json) :
    Except String BindingKind :=
  firstOk "BindingKind" [
    (do
      let v ← tryVariant j "equality" (dsEqualityConstraint d)
      pure (BindingKind.equality v))]

/-- The failing decoder used at fuel 0 (serde_json enforces a recursion
limit on deeply nested inputs). -/
def noFuel {α : Type} : Json → Except String α :=
  fun _ => .error "recursion limit exceeded"

def stepDecoders (d : JsonDecoders) : JsonDecoders :=
  ⟨dsParameterF d, dsReturnTypeF d, dsGenericArgsF d, dsBindingKindF d⟩

/-- The fuel-indexed family of decoders for the recursive knot. -/
def decodersAt : Nat → JsonDecoders
  | 0 => ⟨noFuel, noFuel, noFuel, noFuel⟩
  | n + 1 => stepDecoders (decodersAt n)

def dsParameter (fuel : Nat) : Json → Except String Parameter :=
  (decodersAt fuel).parameter

def dsReturnType (fuel : Nat) : Json → Except String ReturnType :=
  (decodersAt fuel).returnType

def dsGenericArgs (fuel : Nat) : Json → Except String GenericArgs :=
  (decodersAt fuel).genericArgs

def dsBindingKind (fuel : Nat) : Json → Except String BindingKind :=
  (decodersAt fuel).bindingKind

-- ## Deserializers for the non-recursive upper layer

def dsFunctionDecl (fuel : Nat) (j : Json) : Except String FunctionDecl := do
  let kvs ← asObj j
  let inputs ←
    reqField kvs "inputs" >>= dsList (dsPair dsString (dsParameter fuel))
  let output ← optField (dsReturnType fuel) kvs "output"
  let c_variadic ← reqField kvs "c_variadic" >>= dsBool
  pure ⟨inputs, output, c_variadic⟩

def dsFunctionDetails (fuel : Nat) (j : Json) :
    Except String FunctionDetails := do
  let kvs ← asObj j
  let decl ← reqField kvs "decl" >>= dsFunctionDecl fuel
  pure ⟨decl⟩

def dsEnumDetails (j : Json) : Except String EnumDetails := do
  let kvs ← asObj j
  let variants ← reqField kvs "variants" >>= dsList dsString
  let variants_stripped ← reqField kvs "variants_stripped" >>= dsBool
  pure ⟨variants, variants_stripped⟩

/-- Deserializer for `ItemInner`: a plain struct with two independent
`Option` fields (JSON keys `function` and `enum`), not a tagged union. -/
def dsItemInner (fuel : Nat) (j : Json) : Except String ItemInner := do
  let kvs ← asObj j
  let function ← optField (dsFunctionDetails fuel) kvs "function"
  let enum_ ← optField dsEnumDetails kvs "enum"
  pure ⟨function, enum_⟩

def dsRustDocItem (fuel : Nat) (j : Json) : Except String RustDocItem := do
  let kvs ← asObj j
  let docs ← optField dsString kvs "docs"
  let visibility ← optField dsString kvs "visibility"
  let name ← optField dsString kvs "name"
  let inner ← optField (dsItemInner fuel) kvs "inner"
  pure ⟨docs, visibility, name, inner⟩

def dsIndex (fuel : Nat) : Json → Except String (List (String × RustDocItem))
  | .obj kvs => kvs.mapM fun kv => do
      let item ← dsRustDocItem fuel kv.2
      pure (kv.1, item)
  | _ => .error "invalid type: expected a map"

def dsRustDoc (fuel : Nat) (j : Json) : Except String RustDoc := do
  let kvs ← asObj j
  let root ← reqField kvs "root" >>= dsString
  let crate_version ← reqField kvs "crate_version" >>= dsString
  let includes_private ← reqField kvs "includes_private" >>= dsBool
  let index ← reqField kvs "index" >>= dsIndex fuel
  pure ⟨root, crate_version, includes_private, index⟩

-- ## Concrete instances used by witnesses and counterexamples

/-- A document with an empty index. -/
def exampleEmptyDoc : RustDoc := ⟨"0:0", "0.1.0", false, []⟩

/-- A document whose index holds a single documented but unnamed item. -/
def exampleVariantDoc : RustDoc :=
  ⟨"0:0", "0.1.0", false, [("0:2", ⟨some "Variant docs", none, none, none⟩)]⟩

/-- The JSON of an `inner` object carrying both the `function` and the
`enum` keys, each with a well-formed payload. -/
def innerBothKeysJson : Json :=
  .obj [
    ("function", .obj [("decl", .obj [
      ("inputs", .arr []),
      ("output", .null),
      ("c_variadic", .bool false)])]),
    ("enum", .obj [
      ("variants", .arr [.str "0:1"]),
      ("variants_stripped", .bool false)])]

-- ## Spec-level variant tags (for the refinement claim about the two
-- type-expression hierarchies)

/-- Modelled from the spec: the unified set of eleven type-expression
variant tags that the data-model section lists for `TypeExpr`. -/
inductive SpecTypeExprTag where
  | primitiveTag
  | genericTag
  | borrowedRefTag
  | rawPointerTag
  | sliceTag
  | arrayTag
  | tupleTag
  | resolvedPathTag
  | qualifiedPathTag
  | implTraitTag
  | dynTraitTag
deriving DecidableEq

/-- The spec-level variant tag carried by a `Parameter` value. -/
def Parameter.specTag : Parameter → SpecTypeExprTag
  | .borrowedRef _ => .borrowedRefTag
  | .primitive _ => .primitiveTag
  | .generic _ => .genericTag
  | .resolvedPath _ => .resolvedPathTag
  | .qualified _ => .qualifiedPathTag
  | .slice _ => .sliceTag
  | .array _ => .arrayTag
  | .rawPointer _ => .rawPointerTag
  | .implTrait _ => .implTraitTag
  | .dynTrait _ => .dynTraitTag

/-- The spec-level variant tag carried by a `ReturnType` value. -/
def ReturnType.specTag : ReturnType → SpecTypeExprTag
  | .resolvedPath _ => .resolvedPathTag
  | .borrowedRef _ => .borrowedRefTag
  | .primitive _ => .primitiveTag
  | .generic _ => .genericTag
  | .qualified _ => .qualifiedPathTag
  | .array _ => .arrayTag
  | .tuple _ => .tupleTag
  | .slice _ => .sliceTag
  | .rawPointer _ => .rawPointerTag
  | .implTrait _ => .implTraitTag
  | .dynTrait _ => .dynTraitTag

-- ## Helper lemmas

/-- Deserializing a JSON array of strings yields exactly those strings. -/
theorem dsElems_str (ids : List String) :
    dsElems dsString (ids.map Json.str) = Except.ok ids := by
  induction ids with
  | nil => rfl
  | cons x xs ih => simp [dsElems, dsString, ih]; rfl

/-- Binding a successful `Except` computation applies the continuation. -/
theorem exceptBind_ok {ε α β : Type} (a : α) (f : α → Except ε β) :
    (Except.ok a : Except ε α) >>= f = f a := rfl

/-- A key that no entry of an association list carries filters to nothing. -/
theorem filter_key_nil (kvs : List (String × Json)) (key : String)
    (h : ∀ kv ∈ kvs, kv.1 ≠ key) :
    kvs.filter (fun kv => kv.1 == key) = [] := by
  induction kvs with
  | nil => rfl
  | cons x xs ih =>
    rw [List.filter_cons]
    have hx : (x.1 == key) = false := by
      simpa using h x (List.mem_cons_self x xs)
    simp only [hx, Bool.false_eq_true, if_false]
    exact ih fun kv hkv => h kv (List.mem_cons_of_mem x hkv)

/-- A field whose key occurs in no entry of the object is reported absent. -/
theorem getField_absent (kvs : List (String × Json)) (key : String)
    (h : ∀ kv ∈ kvs, kv.1 ≠ key) : getField kvs key = .ok none := by
  unfold getField
  rw [filter_key_nil kvs key h]

/-- A field whose key heads the object and recurs nowhere else is found. -/
theorem getField_found (key : String) (v : Json) (rest : List (String × Json))
    (h : ∀ kv ∈ rest, kv.1 ≠ key) :
    getField ((key, v) :: rest) key = .ok (some v) := by
  unfold getField
  rw [List.filter_cons]
  simp [filter_key_nil rest key h]

/-- Field extraction ignores entries under other keys. -/
theorem getField_skip (k : String) (v : Json) (rest : List (String × Json))
    (key : String) (hne : k ≠ key) :
    getField ((k, v) :: rest) key = getField rest key := by
  unfold getField
  rw [List.filter_cons]
  simp [hne]

/-- An untagged variant whose key is absent fails with a missing-field
error. -/
theorem tryVariant_absent {α : Type} (kvs : List (String × Json)) (key : String)
    (ds : Json → Except String α) (h : ∀ kv ∈ kvs, kv.1 ≠ key) :
    tryVariant (.obj kvs) key ds = .error ("missing field " ++ key) := by
  show Except.bind (reqField kvs key) ds = _
  unfold reqField
  rw [getField_absent kvs key h]
  rfl

/-- An untagged variant whose key is present hands its payload to the
payload deserializer. -/
theorem tryVariant_present {α : Type} (kvs : List (String × Json)) (key : String)
    (v : Json) (ds : Json → Except String α)
    (hg : getField kvs key = .ok (some v)) :
    tryVariant (.obj kvs) key ds = ds v := by
  show Except.bind (reqField kvs key) ds = ds v
  unfold reqField
  rw [hg]
  rfl

/-- A variant attempt (try plus constructor wrap) on an object lacking the
variant key is an error. -/
theorem variant_bind_absent {α β : Type} (kvs : List (String × Json))
    (key : String) (ds : Json → Except String α) (f : α → Except String β)
    (h : ∀ kv ∈ kvs, kv.1 ≠ key) :
    ∃ msg, (tryVariant (.obj kvs) key ds >>= f) = .error msg :=
  ⟨"missing field " ++ key, by rw [tryVariant_absent kvs key ds h]; rfl⟩

/-- When every variant attempt fails, the untagged deserializer fails with
the generic untagged-enum error. -/
theorem firstOk_all_errors {α : Type} (nm : String) (l : List (Except String α))
    (h : ∀ e ∈ l, ∃ msg, e = .error msg) :
    firstOk nm l
      = .error ("data did not match any variant of untagged enum " ++ nm) := by
  induction l with
  | nil => rfl
  | cons x xs ih =>
    obtain ⟨msg, hx⟩ := h x (List.mem_cons_self x xs)
    subst hx
    show firstOk nm xs = _
    exact ih fun e he => h e (List.mem_cons_of_mem _ he)

-- ## Claims

/-- C1 counterexample: deserializing an `inner` object that contains both the
`function` and the `enum` keys succeeds rather than failing with a
SchemaError — `ItemInner` is a plain struct of two independent optional
fields, not a mutually exclusive tagged union. -/
theorem itemInner_both_keys_ok :
    dsItemInner 8 innerBothKeysJson
      = .ok ⟨some ⟨⟨[], none, false⟩⟩, some ⟨["0:1"], false⟩⟩ := rfl

/-- C1 (amended): `ItemInner` imposes no mutual exclusivity — for every inner
object whose `function` field is absent or well-formed and whose `enum`
field is absent or well-formed, deserialization succeeds with both results,
so zero, one, or both keys are accepted; for the four untagged unions,
every JSON object carrying none of the variant keys fails with the untagged
structural error, and an object carrying several variant keys deserializes
as the first variant in declaration order whose key is present with a
well-formed payload (a present key with a malformed payload falls through
to later variants). -/
theorem tagged_union_key_behaviour :
    (∀ (fuel : Nat) (kvs : List (String × Json)) (f : Option FunctionDetails)
        (e : Option EnumDetails),
      optField (dsFunctionDetails fuel) kvs "function" = .ok f →
      optField dsEnumDetails kvs "enum" = .ok e →
      dsItemInner fuel (.obj kvs) = .ok ⟨f, e⟩)
    ∧ (∀ (fuel : Nat) (kvs : List (String × Json)),
        (∀ kv ∈ kvs, kv.1 ∉ (["borrowed_ref", "primitive", "generic",
            "resolved_path", "qualified_path", "slice", "array",
            "raw_pointer", "impl_trait", "dyn_trait"] : List String)) →
        dsParameter (fuel + 1) (.obj kvs)
          = .error "data did not match any variant of untagged enum Parameter")
    ∧ (∀ (fuel : Nat) (kvs : List (String × Json)),
        (∀ kv ∈ kvs, kv.1 ∉ (["resolved_path", "borrowed_ref", "primitive",
            "generic", "qualified_path", "array", "tuple", "slice",
            "raw_pointer", "impl_trait", "dyn_trait"] : List String)) →
        dsReturnType (fuel + 1) (.obj kvs)
          = .error "data did not match any variant of untagged enum ReturnType")
    ∧ (∀ (fuel : Nat) (kvs : List (String × Json)),
        (∀ kv ∈ kvs,
          kv.1 ∉ (["angle_bracketed", "parenthesized"] : List String)) →
        dsGenericArgs (fuel + 1) (.obj kvs)
          = .error "data did not match any variant of untagged enum GenericArgs")
    ∧ (∀ (fuel : Nat) (kvs : List (String × Json)),
        (∀ kv ∈ kvs, kv.1 ≠ "equality") →
        dsBindingKind (fuel + 1) (.obj kvs)
          = .error "data did not match any variant of untagged enum BindingKind")
    ∧ (∀ (fuel : Nat) (s : String) (rest : List (String × Json)),
        (∀ kv ∈ rest, kv.1 ≠ "borrowed_ref" ∧ kv.1 ≠ "primitive") →
        dsParameter (fuel + 1) (.obj (("primitive", .str s) :: rest))
          = .ok (.primitive s))
    ∧ (∀ (fuel : Nat) (s : String) (rest : List (String × Json)),
        (∀ kv ∈ rest, kv.1 ≠ "resolved_path" ∧ kv.1 ≠ "borrowed_ref"
            ∧ kv.1 ≠ "primitive") →
        dsReturnType (fuel + 1) (.obj (("primitive", .str s) :: rest))
          = .ok (.primitive s))
    ∧ (∀ (fuel : Nat) (rest : List (String × Json)),
        (∀ kv ∈ rest, kv.1 ≠ "angle_bracketed") →
        dsGenericArgs (fuel + 1)
            (.obj (("angle_bracketed", .obj [("args", .arr [])]) :: rest))
          = .ok (.angleBracketed (.mk [] [])))
    ∧ (∀ (fuel : Nat) (s : String) (rest : List (String × Json)),
        (∀ kv ∈ rest, kv.1 ≠ "borrowed_ref" ∧ kv.1 ≠ "primitive") →
        dsParameter (fuel + 1)
            (.obj (("borrowed_ref", .null) :: ("primitive", .str s) :: rest))
          = .ok (.primitive s)) := by
  refine ⟨?_, ?_, ?_, ?_, ?_, ?_, ?_, ?_, ?_⟩
  · intro fuel kvs f e hf he
    simp only [dsItemInner, asObj, exceptBind_ok, hf, he]
    rfl
  · intro fuel kvs h
    have hk : ∀ key : String, key ∈ (["borrowed_ref", "primitive", "generic",
        "resolved_path", "qualified_path", "slice", "array", "raw_pointer",
        "impl_trait", "dyn_trait"] : List String) →
        ∀ kv ∈ kvs, kv.1 ≠ key := fun key hkey kv hkv heq => h kv hkv (heq ▸ hkey)
    show dsParameterF (decodersAt fuel) (.obj kvs) = _
    unfold dsParameterF
    apply firstOk_all_errors
    intro e he
    simp only [List.mem_cons, List.not_mem_nil, or_false] at he
    rcases he with rfl | rfl | rfl | rfl | rfl | rfl | rfl | rfl | rfl | rfl
    · exact variant_bind_absent kvs "borrowed_ref" _ _ (hk _ (by simp))
    · exact variant_bind_absent kvs "primitive" _ _ (hk _ (by simp))
    · exact variant_bind_absent kvs "generic" _ _ (hk _ (by simp))
    · exact variant_bind_absent kvs "resolved_path" _ _ (hk _ (by simp))
    · exact variant_bind_absent kvs "qualified_path" _ _ (hk _ (by simp))
    · exact variant_bind_absent kvs "slice" _ _ (hk _ (by simp))
    · exact variant_bind_absent kvs "array" _ _ (hk _ (by simp))
    · exact variant_bind_absent kvs "raw_pointer" _ _ (hk _ (by simp))
    · exact variant_bind_absent kvs "impl_trait" _ _ (hk _ (by simp))
    · exact variant_bind_absent kvs "dyn_trait" _ _ (hk _ (by simp))
  · intro fuel kvs h
    have hk : ∀ key : String, key ∈ (["resolved_path", "borrowed_ref",
        "primitive", "generic", "qualified_path", "array", "tuple", "slice",
        "raw_pointer", "impl_trait", "dyn_trait"] : List String) →
        ∀ kv ∈ kvs, kv.1 ≠ key := fun key hkey kv hkv heq => h kv hkv (heq ▸ hkey)
    show dsReturnTypeF (decodersAt fuel) (.obj kvs) = _
    unfold dsReturnTypeF
    apply firstOk_all_errors
    intro e he
    simp only [List.mem_cons, List.not_mem_nil, or_false] at he
    rcases he with rfl | rfl | rfl | rfl | rfl | rfl | rfl | rfl | rfl | rfl | rfl
    · exact variant_bind_absent kvs "resolved_path" _ _ (hk _ (by simp))
    · exact variant_bind_absent kvs "borrowed_ref" _ _ (hk _ (by simp))
    · exact variant_bind_absent kvs "primitive" _ _ (hk _ (by simp))
    · exact variant_bind_absent kvs "generic" _ _ (hk _ (by simp))
    · exact variant_bind_absent kvs "qualified_path" _ _ (hk _ (by simp))
    · exact variant_bind_absent kvs "array" _ _ (hk _ (by simp))
    · exact variant_bind_absent kvs "tuple" _ _ (hk _ (by simp))
    · exact variant_bind_absent kvs "slice" _ _ (hk _ (by simp))
    · exact variant_bind_absent kvs "raw_pointer" _ _ (hk _ (by simp))
    · exact variant_bind_absent kvs "impl_trait" _ _ (hk _ (by simp))
    · exact variant_bind_absent kvs "dyn_trait" _ _ (hk _ (by simp))
  · intro fuel kvs h
    have hk : ∀ key : String,
        key ∈ (["angle_bracketed", "parenthesized"] : List String) →
        ∀ kv ∈ kvs, kv.1 ≠ key := fun key hkey kv hkv heq => h kv hkv (heq ▸ hkey)
    show dsGenericArgsF (decodersAt fuel) (.obj kvs) = _
    unfold dsGenericArgsF
    apply firstOk_all_errors
    intro e he
    simp only [List.mem_cons, List.not_mem_nil, or_false] at he
    rcases he with rfl | rfl
    · exact variant_bind_absent kvs "angle_bracketed" _ _ (hk _ (by simp))
    · exact variant_bind_absent kvs "parenthesized" _ _ (hk _ (by simp))
  · intro fuel kvs h
    show dsBindingKindF (decodersAt fuel) (.obj kvs) = _
    unfold dsBindingKindF
    apply firstOk_all_errors
    intro e he
    simp only [List.mem_cons, List.not_mem_nil, or_false] at he
    subst he
    exact variant_bind_absent kvs "equality" _ _ h
  · intro fuel s rest h
    show dsParameterF (decodersAt fuel)
        (.obj (("primitive", .str s) :: rest)) = _
    unfold dsParameterF
    rw [tryVariant_absent (("primitive", Json.str s) :: rest) "borrowed_ref"
        (dsBorrowedRefParam (decodersAt fuel)) (by
          intro kv hkv
          rcases List.mem_cons.mp hkv with rfl | hmem
          · simp
          · exact (h kv hmem).1)]
    rw [tryVariant_present (("primitive", Json.str s) :: rest) "primitive"
        (Json.str s) dsString
        (getField_found "primitive" (Json.str s) rest
          fun kv hkv => (h kv hkv).2)]
    rfl
  · intro fuel s rest h
    show dsReturnTypeF (decodersAt fuel)
        (.obj (("primitive", .str s) :: rest)) = _
    unfold dsReturnTypeF
    rw [tryVariant_absent (("primitive", Json.str s) :: rest) "resolved_path"
        (dsResolvedPath (decodersAt fuel)) (by
          intro kv hkv
          rcases List.mem_cons.mp hkv with rfl | hmem
          · simp
          · exact (h kv hmem).1)]
    rw [tryVariant_absent (("primitive", Json.str s) :: rest) "borrowed_ref"
        (dsBorrowedRefReturn (decodersAt fuel)) (by
          intro kv hkv
          rcases List.mem_cons.mp hkv with rfl | hmem
          · simp
          · exact (h kv hmem).2.1)]
    rw [tryVariant_present (("primitive", Json.str s) :: rest) "primitive"
        (Json.str s) dsString
        (getField_found "primitive" (Json.str s) rest
          fun kv hkv => (h kv hkv).2.2)]
    rfl
  · intro fuel rest h
    show dsGenericArgsF (decodersAt fuel)
        (.obj (("angle_bracketed", .obj [("args", .arr [])]) :: rest)) = _
    unfold dsGenericArgsF
    rw [tryVariant_present
        (("angle_bracketed", Json.obj [("args", Json.arr [])]) :: rest)
        "angle_bracketed" (Json.obj [("args", Json.arr [])])
        (dsAngleBracketed (decodersAt fuel))
        (getField_found "angle_bracketed" (Json.obj [("args", Json.arr [])])
          rest h)]
    rfl
  · intro fuel s rest h
    show dsParameterF (decodersAt fuel)
        (.obj (("borrowed_ref", .null) :: ("primitive", .str s) :: rest)) = _
    unfold dsParameterF
    rw [tryVariant_present
        (("borrowed_ref", Json.null) :: ("primitive", Json.str s) :: rest)
        "borrowed_ref" Json.null (dsBorrowedRefParam (decodersAt fuel))
        (getField_found "borrowed_ref" Json.null
          (("primitive", Json.str s) :: rest) (by
            intro kv hkv
            rcases List.mem_cons.mp hkv with rfl | hmem
            · simp
            · exact (h kv hmem).1))]
    rw [tryVariant_present
        (("borrowed_ref", Json.null) :: ("primitive", Json.str s) :: rest)
        "primitive" (Json.str s) dsString (by
          rw [getField_skip "borrowed_ref" Json.null _ "primitive" (by simp)]
          exact getField_found "primitive" (Json.str s) rest
            fun kv hkv => (h kv hkv).2)]
    rfl

/-- C1 witness: the amended behaviour instantiated at concrete inputs — the
both-keys inner object, multi-variant-key `Parameter` and `GenericArgs`
objects, a malformed-payload fall-through object, and an object with no
variant key. -/
theorem tagged_union_key_behaviour_witness :
    dsItemInner 8 innerBothKeysJson
        = .ok ⟨some ⟨⟨[], none, false⟩⟩, some ⟨["0:1"], false⟩⟩
    ∧ dsParameter 8 (.obj [("primitive", .str "u8"), ("generic", .str "T")])
        = .ok (.primitive "u8")
    ∧ dsParameter 8 (.obj [("unknown_key", .str "x")])
        = .error "data did not match any variant of untagged enum Parameter"
    ∧ dsParameter 8 (.obj [("borrowed_ref", .null), ("primitive", .str "u8"),
          ("generic", .str "T")])
        = .ok (.primitive "u8")
    ∧ dsGenericArgs 8 (.obj [("angle_bracketed", .obj [("args", .arr [])]),
          ("parenthesized", .null)])
        = .ok (.angleBracketed (.mk [] [])) :=
  ⟨tagged_union_key_behaviour.1 8
      [("function", .obj [("decl", .obj [
          ("inputs", .arr []),
          ("output", .null),
          ("c_variadic", .bool false)])]),
        ("enum", .obj [
          ("variants", .arr [.str "0:1"]),
          ("variants_stripped", .bool false)])]
      (some ⟨⟨[], none, false⟩⟩) (some ⟨["0:1"], false⟩) rfl rfl,
   tagged_union_key_behaviour.2.2.2.2.2.1 7 "u8" [("generic", .str "T")]
      (by decide),
   tagged_union_key_behaviour.2.1 7 [("unknown_key", .str "x")] (by decide),
   tagged_union_key_behaviour.2.2.2.2.2.2.2.2 7 "u8" [("generic", .str "T")]
      (by decide),
   tagged_union_key_behaviour.2.2.2.2.2.2.2.1 7 [("parenthesized", .null)]
      (by decide)⟩

/-- C2 counterexample: no value of the parameter-position type-expression sum
carries the `Tuple` tag — the `Parameter` enum has no tuple variant. -/
theorem no_tuple_parameter :
    ¬ ∃ p : Parameter, p.specTag = SpecTypeExprTag.tupleTag := by
  rintro ⟨p, h⟩
  cases p <;> simp [Parameter.specTag] at h

/-- C2 (amended): every spec-listed type-expression variant except `Tuple` is
representable in both parameter and return position; `Tuple` is
representable only in return/nested-composite position. -/
theorem variant_representability :
    (∀ t : SpecTypeExprTag, t ≠ SpecTypeExprTag.tupleTag →
      (∃ p : Parameter, p.specTag = t) ∧ (∃ r : ReturnType, r.specTag = t))
    ∧ (∃ r : ReturnType, r.specTag = SpecTypeExprTag.tupleTag)
    ∧ ∀ p : Parameter, p.specTag ≠ SpecTypeExprTag.tupleTag := by
  refine ⟨?_, ⟨.tuple [], rfl⟩, ?_⟩
  · intro t ht
    cases t with
    | primitiveTag => exact ⟨⟨.primitive "u8", rfl⟩, ⟨.primitive "u8", rfl⟩⟩
    | genericTag => exact ⟨⟨.generic "T", rfl⟩, ⟨.generic "T", rfl⟩⟩
    | borrowedRefTag =>
      exact ⟨⟨.borrowedRef (.mk none false (.primitive "u8")), rfl⟩,
        ⟨.borrowedRef (.mk none false (.primitive "u8")), rfl⟩⟩
    | rawPointerTag =>
      exact ⟨⟨.rawPointer (.mk false (.primitive "u8")), rfl⟩,
        ⟨.rawPointer (.mk false (.primitive "u8")), rfl⟩⟩
    | sliceTag =>
      exact ⟨⟨.slice (.primitive "u8"), rfl⟩, ⟨.slice (.primitive "u8"), rfl⟩⟩
    | arrayTag =>
      exact ⟨⟨.array (.mk "1" (.primitive "u8")), rfl⟩,
        ⟨.array (.mk "1" (.primitive "u8")), rfl⟩⟩
    | tupleTag => exact absurd rfl ht
    | resolvedPathTag =>
      exact ⟨⟨.resolvedPath (.mk "X" none none), rfl⟩,
        ⟨.resolvedPath (.mk "X" none none), rfl⟩⟩
    | qualifiedPathTag =>
      exact ⟨⟨.qualified (.mk "Item" none (.primitive "u8") none), rfl⟩,
        ⟨.qualified (.mk "Item" none (.primitive "u8") none), rfl⟩⟩
    | implTraitTag => exact ⟨⟨.implTrait [], rfl⟩, ⟨.implTrait [], rfl⟩⟩
    | dynTraitTag =>
      exact ⟨⟨.dynTrait (.mk none []), rfl⟩, ⟨.dynTrait (.mk none []), rfl⟩⟩
  · intro p
    cases p <;> simp [Parameter.specTag]

/-- C2 witness: the amended representability theorem instantiated at the
`Primitive` tag. -/
theorem variant_representability_witness :
    (∃ p : Parameter, p.specTag = SpecTypeExprTag.primitiveTag)
    ∧ (∃ r : ReturnType, r.specTag = SpecTypeExprTag.primitiveTag) :=
  variant_representability.1 SpecTypeExprTag.primitiveTag (by decide)

/-- C3: `render_item` yields `none` exactly when the identifier is absent
from the index, or the item has no name, or the item has no docs. -/
theorem render_item_none_iff (doc : RustDoc) (item_id : String) :
    render_item doc item_id = none ↔
      doc.get item_id = none
      ∨ ∃ item, doc.get item_id = some item
          ∧ (item.name = none ∨ item.docs = none) := by
  unfold render_item
  cases h : doc.get item_id with
  | none => simp
  | some item =>
    obtain ⟨docs, vis, name, inner⟩ := item
    cases name <;> cases docs <;> simp [RustDocItem.print, h]

/-- C4: over every value of both type-expression sums, rendering produces
exactly one string — the renderer is total and deterministic. -/
theorem render_total_and_deterministic :
    (∀ p : Parameter, ∃! s : String, renderParameter p = s)
    ∧ (∀ r : ReturnType, ∃! s : String, renderReturnType r = s) :=
  ⟨fun p => ⟨renderParameter p, rfl, fun _ h => h.symm⟩,
   fun r => ⟨renderReturnType r, rfl, fun _ h => h.symm⟩⟩

/-- C5: enum variant identifiers are deserialized as plain strings without
resolution (any identifier list parses), an unresolved identifier renders
as nothing, and dropping an unresolved identifier from the variant list
leaves the rendered enum block unchanged. -/
theorem unresolved_variant_tolerated :
    (∀ (ids : List String) (b : Bool),
      dsEnumDetails (.obj [("variants", .arr (ids.map .str)),
        ("variants_stripped", .bool b)]) = .ok ⟨ids, b⟩)
    ∧ (∀ (doc : RustDoc) (vid : String), doc.get vid = none →
        enumVariantLine doc vid = "")
    ∧ (∀ (doc : RustDoc) (name vid : String) (b : Bool)
        (pre post : List String), doc.get vid = none →
        renderEnumBlock doc name ⟨pre ++ vid :: post, b⟩
          = renderEnumBlock doc name ⟨pre ++ post, b⟩) := by
  have hline : ∀ (doc : RustDoc) (vid : String), doc.get vid = none →
      enumVariantLine doc vid = "" := by
    intro doc vid h
    simp [enumVariantLine, h]
  refine ⟨?_, hline, ?_⟩
  · intro ids b
    have h1 : dsEnumDetails (.obj [("variants", .arr (ids.map .str)),
        ("variants_stripped", .bool b)])
        = Except.bind (dsElems dsString (ids.map Json.str))
            (fun variants => Except.ok ⟨variants, b⟩) := rfl
    rw [h1, dsElems_str]
    rfl
  · intro doc name vid b pre post h
    have hlines : enumLines doc (pre ++ vid :: post)
        = enumLines doc (pre ++ post) := by
      induction pre with
      | nil => simp [enumLines, hline doc vid h]
      | cons x xs ih => simp [enumLines, ih]
    simp [renderEnumBlock, hlines]

/-- C5 witness: the skip property instantiated on a document with an empty
index and the unresolved identifier `0:9`. -/
theorem unresolved_variant_witness :
    exampleEmptyDoc.get "0:9" = none
    ∧ renderEnumBlock exampleEmptyDoc "E" ⟨["0:9"], false⟩
        = renderEnumBlock exampleEmptyDoc "E" ⟨[], false⟩ :=
  ⟨rfl,
    unresolved_variant_tolerated.2.2 exampleEmptyDoc "E" "0:9" false [] [] rfl⟩

/-- C6: slices render as the bracketed inner rendering, arrays add the
length expression after a semicolon, the empty tuple renders as the unit
type, and a two-element tuple renders comma-space separated. -/
theorem composite_rendering :
    (∀ (t : ReturnType) (n : String),
      renderReturnType (.slice t) = "[" ++ renderReturnType t ++ "]"
      ∧ renderReturnType (.array (.mk n t))
          = "[" ++ renderReturnType t ++ "; " ++ n ++ "]")
    ∧ renderReturnType (.tuple []) = "()"
    ∧ (∀ a b : ReturnType,
      renderReturnType (.tuple [a, b])
        = "(" ++ renderReturnType a ++ ", " ++ renderReturnType b ++ ")")
    ∧ (∀ (t : Parameter) (n : String),
      renderParameter (.slice t) = "[" ++ renderParameter t ++ "]"
      ∧ renderParameter (.array (.mk n t))
          = "[" ++ renderParameter t ++ "; " ++ n ++ "]") := by
  refine ⟨fun t n => ⟨?_, ?_⟩, rfl, fun a b => ?_, fun t n => ⟨?_, ?_⟩⟩
  · simp [renderReturnType]
  · simp [renderReturnType, String.append_assoc]
  · simp [renderReturnType, renderReturnTypeList, String.append_assoc]
  · simp [renderParameter]
  · simp [renderParameter, String.append_assoc]

/-- C7: resolved and qualified paths render as the name followed by the
formatted angle-bracketed argument list; absent, empty, or parenthesized
argument lists format as the empty string; `Vec` with a `u8` type argument
renders as `Vec<u8>` and with no arguments as `Vec`. -/
theorem path_rendering :
    (∀ (name : String) (id : Option String) (args : Option GenericArgs),
      renderReturnType (.resolvedPath (.mk name id args))
          = name ++ format_angle_bracketed_args args
      ∧ renderParameter (.resolvedPath (.mk name id args))
          = name ++ format_angle_bracketed_args args)
    ∧ (∀ (name : String) (args : Option GenericArgs) (self_type : Parameter)
        (tr : Option ResolvedPath),
      renderReturnType (.qualified (.mk name args self_type tr))
          = name ++ format_angle_bracketed_args args
      ∧ renderParameter (.qualified (.mk name args self_type tr))
          = name ++ format_angle_bracketed_args args)
    ∧ format_angle_bracketed_args none = ""
    ∧ (∀ bindings : List TypeBinding,
      format_angle_bracketed_args
          (some (.angleBracketed (.mk [] bindings))) = "")
    ∧ (∀ pg : ParenthesizedGenericArgs,
      format_angle_bracketed_args (some (.parenthesized pg)) = "")
    ∧ renderReturnType (.resolvedPath (.mk "Vec" none
        (some (.angleBracketed (.mk [.type ⟨some "u8", none⟩] []))))) = "Vec<u8>"
    ∧ renderReturnType (.resolvedPath (.mk "Vec" none none)) = "Vec" :=
  ⟨fun _ _ _ => ⟨rfl, rfl⟩,
   fun _ _ _ _ => ⟨rfl, rfl⟩,
   rfl, fun _ => rfl, fun _ => rfl, rfl, rfl⟩

/-- C8: the printed function declaration never depends on the `c_variadic`
flag. -/
theorem variadic_flag_ignored :
    ∀ (inputs : List (String × Parameter)) (output : Option ReturnType)
      (b1 b2 : Bool) (name : String),
      FunctionDecl.print ⟨inputs, output, b1⟩ name
        = FunctionDecl.print ⟨inputs, output, b2⟩ name :=
  fun _ _ _ _ _ => rfl

/-- C9: the printed item output never depends on the `visibility` field, and
every item carrying both a name and docs produces output. -/
theorem visibility_never_read :
    (∀ (doc : RustDoc) (docs name : Option String) (inner : Option ItemInner)
        (v1 v2 : Option String),
      RustDocItem.print ⟨docs, v1, name, inner⟩ doc
        = RustDocItem.print ⟨docs, v2, name, inner⟩ doc)
    ∧ (∀ (doc : RustDoc) (item : RustDocItem) (n d : String),
        item.name = some n → item.docs = some d →
        (item.print doc).isSome = true) := by
  refine ⟨fun doc docs name inner v1 v2 => rfl, ?_⟩
  intro doc item n d hn hd
  simp [RustDocItem.print, hn, hd]

/-- C9 witness: a concrete named and documented item is printed (and the
print ignores its absent visibility). -/
theorem visibility_never_read_witness :
    (⟨some "Adds.", none, some "add", none⟩ : RustDocItem).name = some "add"
    ∧ (⟨some "Adds.", none, some "add", none⟩ : RustDocItem).docs = some "Adds."
    ∧ ((⟨some "Adds.", none, some "add", none⟩ : RustDocItem).print
        exampleEmptyDoc).isSome = true :=
  ⟨rfl, rfl,
    visibility_never_read.2 exampleEmptyDoc
      ⟨some "Adds.", none, some "add", none⟩ "add" "Adds." rfl rfl⟩

/-- C10: a variant identifier resolving to a documented but unnamed item
contributes exactly its doc-comment line (and no name line) to the enum
body. -/
theorem unnamed_variant_docs_rendered :
    ∀ (doc : RustDoc) (variant_id : String) (variant : RustDocItem)
      (d : String),
      doc.get variant_id = some variant →
      variant.docs = some d →
      variant.name = none →
      enumVariantLine doc variant_id = "    /// " ++ d ++ "\n"
      ∧ ∀ (name : String) (b : Bool),
          renderEnumBlock doc name ⟨[variant_id], b⟩
            = "```rust\n" ++ "pub enum " ++ name ++ " \x7b\n"
              ++ ("    /// " ++ d ++ "\n") ++ "\x7d\n" ++ "```\n" ++ "\n" := by
  intro doc variant_id variant d hget hd hn
  have hline : enumVariantLine doc variant_id = "    /// " ++ d ++ "\n" := by
    simp [enumVariantLine, hget, hd, hn]
  refine ⟨hline, fun name b => ?_⟩
  simp [renderEnumBlock, enumLines, hline, String.append_assoc]

/-- C10 witness: the property instantiated on a document holding one
documented, unnamed item under identifier `0:2`. -/
theorem unnamed_variant_docs_rendered_witness :
    exampleVariantDoc.get "0:2" = some ⟨some "Variant docs", none, none, none⟩
    ∧ enumVariantLine exampleVariantDoc "0:2" = "    /// Variant docs\n" :=
  ⟨rfl, (unnamed_variant_docs_rendered exampleVariantDoc "0:2"
      ⟨some "Variant docs", none, none, none⟩ "Variant docs" rfl rfl rfl).1⟩
